import Mathlib

/-!
Shallow embedding of the SDRT Frappe/ERPNext client-side customizations
(row recompute handlers, item-code sanitization guards, schedule-date
validation, budget-line import defaults, and the installation shell
script), together with theorems settling the specification claims.

Numbers carried by form fields are modelled as `ℚ` (the JS callbacks do
plain arithmetic on floats; every input concerned here is exact).
Missing / non-numeric field values are `Option.none`; `flt(x) || 0`
becomes `Option.getD · 0`.  String-valued fields use `String`, with `""`
playing the role of a JS-falsy (empty/undefined) value, matching the
`x || ''` / `if (x)` idioms of the source.  Dates are day numbers in `ℤ`
(`frappe.datetime.get_diff a b = a - b`, `add_days d n = d + n`).
-/

namespace SDRT

/-! ## Child-table row model and the two recompute handlers

From `src/sdrt/sdrt/doctype/table_demande_dachat/table_demande_dachat.js`
(`compute`) and `src/unnamed/part_004` (`recalc_row_and_total`).  A row of
the child table `table demande dachat` carries `qte`, `pu`, the derived
`estimation`, and arbitrary further fields (`rest`) the handlers never
touch.  Each handler returns the updated row together with a flag
recording whether `frappe.model.set_value` was invoked. -/

structure DARow where
  qte : Option ℚ
  pu : Option ℚ
  estimation : Option ℚ
  rest : List (String × String)
deriving Repr, DecidableEq

/-- `frappe.utils.flt(v) || 0`: missing / non-numeric becomes `0`. -/
def flt0 (v : Option ℚ) : ℚ := v.getD 0

/-- The product `q * pu` both handlers compute from the row. -/
def computeEst (row : DARow) : ℚ := flt0 row.qte * flt0 row.pu

/-- `compute(cdt, cdn)` from `table_demande_dachat.js` lines 8-19:
`const est = q * pu; if (est >= 0 && row.estimation !== est)
{ frappe.model.set_value(cdt, cdn, 'estimation', est); }`.
Returns the row after the handler and whether a write occurred. -/
def compute (row : DARow) : DARow × Bool :=
  let est := computeEst row
  if 0 ≤ est ∧ row.estimation ≠ some est then
    ({ row with estimation := some est }, true)
  else
    (row, false)

/-- `recalc_row_and_total(cdt, cdn, frm)` from `part_004` lines 18-27:
`if (row.estimation !== new_estimation) { frappe.model.set_value(...) }`.
The trailing `recalc_total(frm)` call writes no row field (its body is
commented out in the source), so the row effect is exactly this. -/
def recalc_row_and_total (row : DARow) : DARow × Bool :=
  let new_estimation := computeEst row
  if row.estimation ≠ some new_estimation then
    ({ row with estimation := some new_estimation }, true)
  else
    (row, false)

end SDRT

namespace SDRT

/-! ## Item-code sanitization guards

Four source files carry a guard against purely numeric item codes
(`/^\d+$/`).  Each guard is embedded as a function of the two row fields
it reads, `item_code` and `code_analytique`, returning the final
`item_code` together with whether a model write happened and whether a
user-visible alert (`frappe.show_alert`) was raised. -/

/-- `/^\d+$/.test(String(x))`: non-empty and all characters digits. -/
def isNumericCode (s : String) : Bool :=
  !s.data.isEmpty && s.data.all Char.isDigit

/-- Outcome of running one sanitization callback on one row. -/
structure GuardEffect where
  item_code : String
  wrote : Bool
  alerted : Bool
deriving Repr, DecidableEq

/-- `item_code` handler of `src/sdrt/public/js/purchase_receipt.js`
lines 15-24: numeric code and a truthy `code_analytique` fallback give a
write of the fallback; otherwise nothing happens (no alert anywhere). -/
def receipt_public_item_code (item_code code_analytique : String) : GuardEffect :=
  if isNumericCode item_code then
    let fallback := code_analytique
    if fallback ≠ "" then ⟨fallback, true, false⟩
    else ⟨item_code, false, false⟩
  else ⟨item_code, false, false⟩

/-- `item_code` handler of `src/unnamed/part_003` lines 7-22: like the
public guard, but `frappe.show_alert` fires whenever the code is numeric,
with or without a fallback. -/
def receipt3_item_code (item_code code_analytique : String) : GuardEffect :=
  if isNumericCode item_code then
    if code_analytique ≠ "" then ⟨code_analytique, true, true⟩
    else ⟨item_code, false, true⟩
  else ⟨item_code, false, false⟩

/-- `validate` handler of `src/unnamed/part_003` lines 24-34 (same
substitution, no alert); only the final `item_code` matters. -/
def receipt3_validate (item_code code_analytique : String) : String :=
  if isNumericCode item_code then
    if code_analytique ≠ "" then code_analytique else item_code
  else item_code

/-- `before_save` per-item body of `src/unnamed/part_003` lines 51-60:
`if (item.item_code && /^\d+$/.test(...) && item.code_analytique)
{ set_value(..., item.code_analytique) }`. -/
def receipt3_before_save (item_code code_analytique : String) : String :=
  if isNumericCode item_code ∧ code_analytique ≠ "" then code_analytique
  else item_code

/-- `item_code` handler of `src/sdrt/sdrt/custom/purchase_receipt.js`
lines 7-19: a numeric code is replaced by the literal placeholder
`BUDGET-LINE` (the fallback field is not consulted) and an alert is
raised. -/
def receipt_custom_item_code (item_code : String) : GuardEffect :=
  if isNumericCode item_code then ⟨"BUDGET-LINE", true, true⟩
  else ⟨item_code, false, false⟩

/-- `validate` handler of `src/sdrt/sdrt/custom/purchase_receipt.js`
lines 21-28: `item.item_code && !item.item_code.startsWith('BUDGET-LINE')
&& /^\d+$/.test(...)` forces the placeholder. -/
def receipt_custom_validate (item_code : String) : String :=
  if item_code ≠ "" ∧ ¬("BUDGET-LINE".data.isPrefixOf item_code.data)
      ∧ isNumericCode item_code then "BUDGET-LINE"
  else item_code

/-- `item_code` handler of the Purchase Order script
(`src/unnamed/part_002` lines 31-40): identical fallback substitution,
no alert. -/
def po_item_code (item_code code_analytique : String) : String :=
  if isNumericCode item_code then
    let fallback := code_analytique
    if fallback ≠ "" then fallback else item_code
  else item_code

end SDRT

namespace SDRT

/-! ## Schedule-date validation and budget-line import

From `src/unnamed/part_002`.  Dates are day numbers (`ℤ`);
`frappe.datetime.get_diff(a, b)` is `a - b` and `add_days(d, n)` is
`d + n`.  A missing date field is `none`. -/

/-- `validate_schedule_date(frm, cdt, cdn)` lines 90-104: returns the
row's `schedule_date` after the handler.  Either date missing: early
return, no change.  Otherwise a schedule date strictly before the
transaction date is replaced by `transaction_date + 7`. -/
def validate_schedule_date (schedule_date transaction_date : Option ℤ) :
    Option ℤ :=
  match schedule_date, transaction_date with
  | some sd, some td => if sd - td < 0 then some (td + 7) else some sd
  | _, _ => schedule_date

/-- One budget line returned by the `get_multi_da_budget_lines` RPC, as
read by `add_budget_lines_to_po`.  `uom = ""` stands for a JS-falsy
(missing/empty) unit of measure; `qty`/`rate` are `none` when absent. -/
structure BudgetLine where
  code_analytique : String
  description : String
  qty : Option ℚ
  rate : Option ℚ
  uom : String
  schedule_date : Option ℤ
deriving Repr, DecidableEq

/-- A Purchase Order item row as populated by `add_budget_lines_to_po`. -/
structure POItem where
  item_code : String
  code_analytique : String
  item_name : String
  details : String
  qty : ℚ
  rate : ℚ
  uom : String
  stock_uom : String
  conversion_factor : ℚ
  schedule_date : ℤ
  amount : ℚ
deriving Repr, DecidableEq

/-- JS `x || d` on an optional number: `0` and missing are falsy. -/
def jsNumOr (v : Option ℚ) (d : ℚ) : ℚ :=
  match v with
  | some x => if x = 0 then d else x
  | none => d

/-- JS `x || y` on strings, `""` falsy. -/
def jsStrOr (x y : String) : String := if x ≠ "" then x else y

/-- The row built for one budget line by `add_budget_lines_to_po`
(`part_002` lines 154-184), given the parent document's `schedule_date`
and `transaction_date`.  Field by field from the source:
`item_code = line.code_analytique || ''`;
`item_name = (line.description && line.description.trim()) ?
line.description : (line.code_analytique || 'Budget Line')`;
`qty = line.qty || 1`; `rate = line.rate || 0`;
`uom = stock_uom = line.uom || 'Nos'`; `conversion_factor = 1`;
`schedule_date = line.schedule_date || frm.doc.schedule_date`, bumped to
`transaction_date + 7` when missing or earlier than the transaction
date; `amount = (flt(qty) || 0) * (flt(rate) || 0)`. -/
def add_budget_line_row (line : BudgetLine) (doc_schedule_date : Option ℤ)
    (transaction_date : ℤ) : POItem :=
  let qty := jsNumOr line.qty 1
  let rate := jsNumOr line.rate 0
  let sd0 : Option ℤ :=
    match line.schedule_date with
    | some d => some d
    | none => doc_schedule_date
  let schedule_date :=
    match sd0 with
    | none => transaction_date + 7
    | some d => if d - transaction_date < 0 then transaction_date + 7 else d
  { item_code := line.code_analytique
    code_analytique := line.code_analytique
    item_name :=
      if line.description ≠ "" ∧ line.description.trim ≠ "" then
        line.description
      else jsStrOr line.code_analytique "Budget Line"
    details := ""
    qty := qty
    rate := rate
    uom := jsStrOr line.uom "Nos"
    stock_uom := jsStrOr line.uom "Nos"
    conversion_factor := 1
    schedule_date := schedule_date
    amount := qty * rate }

end SDRT

namespace SDRT

/-! ## Installation shell script

From `src/install_on_target.sh`.  The script's observable behaviour is
its exit code, the lines it prints, and its side effects (the one file
move, the one `apps.txt` append, and the `bench` CLI invocations).  The
filesystem facts it consults are collected in `BenchState`. -/

/-- A side effect performed by the installation script. -/
inductive Effect where
  | moveSdrtToApps
  | appendSdrtToAppsTxt
  | bench (cmd : String)
deriving Repr, DecidableEq

/-- The filesystem/bench facts `install_on_target.sh` branches on. -/
structure BenchState where
  hasSitesAppsTxt : Bool
  hasSdrtDir : Bool
  hasAppsSdrtDir : Bool
  appsTxtContainsSdrt : Bool
  siteDirExists : Bool
  listAppsContainsSdrt : Bool
deriving Repr, DecidableEq

/-- Exit code, printed lines, and side effects of one script run. -/
structure InstallResult where
  exitCode : Nat
  output : List String
  effects : List Effect
deriving Repr, DecidableEq

/-- The two banner lines printed before any check. -/
def installBanner : List String :=
  ["=== SDRT App Installation Script ===",
   "Installing SDRT app in Frappe environment..."]

/-- `install_on_target.sh`, run in state `st` with optional site-name
argument `siteArg` (the `bench` steps are assumed to succeed; under
`set -e` a failing one would stop the script later than anything the
claims are about).  The guard order and messages follow the source:
`sites/apps.txt` check (lines 11-15), `sdrt` directory check (18-22),
argument check (25-29), site-directory check (34-39), then move,
append, and the `bench` subcommands. -/
def install_on_target (st : BenchState) (siteArg : Option String) :
    InstallResult :=
  if !st.hasSitesAppsTxt then
    { exitCode := 1
      output := installBanner ++
        ["❌ Error: This doesn\u0027t appear to be a frappe-bench directory",
         "Please run this script from your frappe-bench folder"]
      effects := [] }
  else if !st.hasSdrtDir then
    { exitCode := 1
      output := installBanner ++
        ["❌ Error: sdrt directory not found",
         "Please ensure you\u0027ve extracted the sdrt-app.tar.gz file in the current directory"]
      effects := [] }
  else
    match siteArg with
    | none =>
      { exitCode := 1
        output := installBanner ++
          ["Please provide the site name as an argument:",
           "Usage: $0 your-site-name"]
        effects := [] }
    | some site =>
      if !st.siteDirExists then
        { exitCode := 1
          output := installBanner ++
            ["❌ Error: Site \u0027" ++ site ++ "\u0027 not found",
             "Available sites:"]
          effects := [] }
      else
        { exitCode := 0
          output := installBanner ++
            ["Installing SDRT app for site: " ++ site] ++
            (if !st.hasAppsSdrtDir then
               ["📁 Moving sdrt to apps directory..."]
             else ["📁 SDRT app already in apps directory"]) ++
            ["📋 Adding app to apps.txt..."] ++
            (if !st.appsTxtContainsSdrt then ["✓ Added sdrt to apps.txt"]
             else ["✓ sdrt already in apps.txt"]) ++
            ["📋 Registering app with bench...",
             "🔧 Installing app on site " ++ site ++ "...",
             "🧹 Clearing cache...",
             "🏗️  Building app assets...",
             "🔄 Running migrations...",
             "🔄 Restarting services...",
             "🔍 Verifying installation..."] ++
            (if st.listAppsContainsSdrt then
               ["✅ SDRT App installation completed successfully!"]
             else
               ["⚠️  Installation may have issues. Please check manually:"])
          effects :=
            (if !st.hasAppsSdrtDir then [Effect.moveSdrtToApps] else []) ++
            (if !st.appsTxtContainsSdrt then [Effect.appendSdrtToAppsTxt]
             else []) ++
            [Effect.bench "get-app",
             Effect.bench ("--site " ++ site ++ " install-app sdrt"),
             Effect.bench ("--site " ++ site ++ " clear-cache"),
             Effect.bench "build --app sdrt",
             Effect.bench ("--site " ++ site ++ " migrate"),
             Effect.bench "restart",
             Effect.bench ("--site " ++ site ++ " list-apps")] }

end SDRT

namespace SDRT

/-! ## Theorems about the sanitization guards -/

/-- A purely numeric code starts with a digit, hence never with the
`BUDGET-LINE` placeholder. -/
theorem numeric_has_no_budget_marker (s : String) (h : isNumericCode s = true) :
    ("BUDGET-LINE".data.isPrefixOf s.data) = false := by
  unfold isNumericCode at h
  simp only [Bool.and_eq_true] at h
  obtain ⟨hne, hall⟩ := h
  cases hd : s.data with
  | nil => rw [hd] at hne; simp at hne
  | cons c t =>
    rw [hd] at hall
    have hc : c.isDigit = true := by
      have := List.all_eq_true.mp hall c (by simp)
      simpa using this
    show (('B' : Char) :: "UDGET-LINE".data).isPrefixOf (c :: t) = false
    simp only [List.isPrefixOf, Bool.and_eq_false_iff]
    left
    simp only [beq_eq_false_iff_ne, ne_eq]
    intro hBc
    rw [← hBc] at hc
    simp [Char.isDigit] at hc

/-- C2 (corrected), counterexample: with `item_code = "1"` and fallback
`code_analytique = "COD-A"` present, the guard of
`src/sdrt/sdrt/custom/purchase_receipt.js` neither substitutes the
fallback nor leaves the code untouched - it writes the placeholder. -/
theorem custom_guard_ignores_fallback :
    (receipt_custom_item_code "1").item_code ≠ "COD-A" ∧
    (receipt_custom_item_code "1").item_code ≠ "1" := by decide

/-- C2 (amended): the guard of `public/js/purchase_receipt.js` replaces a
purely numeric `item_code` with `code_analytique` when that fallback is
non-empty, leaves it untouched when the fallback is empty, and leaves
non-numeric codes unchanged; the guard of
`sdrt/custom/purchase_receipt.js` instead replaces every purely numeric
`item_code` with the literal placeholder `BUDGET-LINE`, whether or not a
fallback is present. -/
theorem numeric_item_code_guard_behavior (i c : String) :
    (isNumericCode i = true → c ≠ "" →
      (receipt_public_item_code i c).item_code = c) ∧
    (isNumericCode i = true → c = "" →
      (receipt_public_item_code i c).item_code = i) ∧
    (isNumericCode i = false →
      (receipt_public_item_code i c).item_code = i) ∧
    (isNumericCode i = true →
      (receipt_custom_item_code i).item_code = "BUDGET-LINE") := by
  refine ⟨fun hn hc => ?_, fun hn hc => ?_, fun hn => ?_, fun hn => ?_⟩ <;>
    simp [receipt_public_item_code, receipt_custom_item_code, hn, *]

/-- Witness for C2 at `item_code = "1"`, `code_analytique = "COD-A"`
(fallback substituted by the public guard, placeholder written by the
custom guard). -/
theorem numeric_item_code_guard_behavior_witness :
    isNumericCode "1" = true ∧ ("COD-A" : String) ≠ "" ∧
    (receipt_public_item_code "1" "COD-A").item_code = "COD-A" ∧
    (receipt_custom_item_code "1").item_code = "BUDGET-LINE" :=
  ⟨by decide, by decide,
    (numeric_item_code_guard_behavior "1" "COD-A").1 (by decide) (by decide),
    (numeric_item_code_guard_behavior "1" "COD-A").2.2.2 (by decide)⟩

/-- C5 (corrected), counterexample: on the same inputs
`(item_code, code_analytique) = ("1", "COD-A")` the field-change guard of
`sdrt/custom/purchase_receipt.js` and the pre-save guard of `part_003`
produce different final item codes (`BUDGET-LINE` vs `COD-A`). -/
theorem sanitization_points_disagree :
    (receipt_custom_item_code "1").item_code ≠
      receipt3_before_save "1" "COD-A" := by decide

/-- C5 (amended): within each file the duplicated guard copies do agree -
the field-change, form-validate and pre-save guards of `part_003` are
extensionally equal, as are the field-change and form-validate guards of
`sdrt/custom/purchase_receipt.js` - but across the two files they differ
(placeholder vs fallback substitution). -/
theorem sanitization_points_within_file_agree (i c : String) :
    (receipt3_item_code i c).item_code = receipt3_validate i c ∧
    receipt3_validate i c = receipt3_before_save i c ∧
    (receipt_custom_item_code i).item_code = receipt_custom_validate i := by
  refine ⟨?_, ?_, ?_⟩
  · unfold receipt3_item_code receipt3_validate
    by_cases hn : isNumericCode i = true <;> by_cases hc : c = "" <;>
      simp [hn, hc]
  · unfold receipt3_validate receipt3_before_save
    by_cases hn : isNumericCode i = true <;> by_cases hc : c = "" <;>
      simp [hn, hc]
  · unfold receipt_custom_item_code receipt_custom_validate
    by_cases hn : isNumericCode i = true
    · have hpre := numeric_has_no_budget_marker i hn
      have hne : i ≠ "" := fun h0 => by
        rw [h0] at hn; exact absurd hn (by decide)
      simp [hn, hpre, hne]
    · simp [hn]

/-- C7 (corrected), counterexample: for a numeric `item_code = "1"` with
empty fallback, the `part_003` field-change callback performs no write
but does raise a user-visible `frappe.show_alert` - it is not silent. -/
theorem part3_guard_alerts_without_fallback :
    (receipt3_item_code "1" "").wrote = false ∧
    (receipt3_item_code "1" "").alerted = true := by decide

/-- C7 (amended): on a purely numeric `item_code` with missing/empty
`code_analytique`, the `public/js/purchase_receipt.js` callback performs
no write and shows no notice, while the `part_003` callback performs no
write but does show a transient alert; both leave `item_code`
unchanged. -/
theorem numeric_code_no_fallback_noop (i c : String)
    (hn : isNumericCode i = true) (hc : c = "") :
    receipt_public_item_code i c = ⟨i, false, false⟩ ∧
    receipt3_item_code i c = ⟨i, false, true⟩ := by
  subst hc
  unfold receipt_public_item_code receipt3_item_code
  simp [hn]

/-- Witness for C7 at `item_code = "1"`, empty fallback. -/
theorem numeric_code_no_fallback_noop_witness :
    isNumericCode "1" = true ∧
    receipt_public_item_code "1" "" = ⟨"1", false, false⟩ ∧
    receipt3_item_code "1" "" = ⟨"1", false, true⟩ :=
  ⟨by decide, (numeric_code_no_fallback_noop "1" "" (by decide) rfl).1,
    (numeric_code_no_fallback_noop "1" "" (by decide) rfl).2⟩

/-- C9 (confirmed): the fallback sanitization guard is idempotent - on
every `(item_code, code_analytique)` pair, running the guard a second
time on its own output changes nothing, both for the
`public/js/purchase_receipt.js` field-change guard and for the `part_003`
form-validate guard. -/
theorem sanitization_guard_idempotent (i c : String) :
    (receipt_public_item_code
        (receipt_public_item_code i c).item_code c).item_code
      = (receipt_public_item_code i c).item_code ∧
    receipt3_validate (receipt3_validate i c) c = receipt3_validate i c := by
  unfold receipt_public_item_code receipt3_validate
  by_cases hn : isNumericCode i = true <;> by_cases hc : c = "" <;>
    by_cases hnc : isNumericCode c = true <;> simp [hn, hc, hnc]

end SDRT

namespace SDRT

/-! ## Theorems about the row recompute handlers -/

/-- C1 (corrected), counterexample: at `qte = -3`, `pu = 10`, stored
`estimation = 999`, the `compute` handler of `table_demande_dachat.js`
does not set `estimation` to the product (its `est >= 0` guard skips the
write), so the row keeps `999` instead of `-30`. -/
theorem compute_skips_negative_product :
    ((compute ⟨some (-3), some 10, some 999, []⟩).1).estimation ≠
      some (computeEst ⟨some (-3), some 10, some 999, []⟩) := by
  norm_num [compute, computeEst, flt0]

/-- C1 (amended): on a change of `qte` or `pu` both handlers recompute
the product `qte * pu` (missing or non-numeric inputs treated as 0); the
`part_004` handler always leaves the row with `estimation` equal to that
product, while the `table_demande_dachat.js` `compute` handler does so
exactly when the product is nonnegative, leaving `estimation` unchanged
on a negative product; quantity 3 with price 10 yields 30 and quantity 4
with price 10 yields 40. -/
theorem recompute_sets_estimation_to_product (row : DARow) :
    (0 ≤ computeEst row →
      ((compute row).1).estimation = some (computeEst row)) ∧
    ((recalc_row_and_total row).1).estimation = some (computeEst row) := by
  constructor
  · intro h
    unfold compute
    by_cases h2 : row.estimation = some (computeEst row) <;> simp [h, h2]
  · unfold recalc_row_and_total
    by_cases h2 : row.estimation = some (computeEst row) <;> simp [h2]

/-- Witness for C1: quantity 3, price 10 gives estimation 30; changing
quantity to 4 with price 10 gives 40; the `part_004` handler agrees. -/
theorem recompute_sets_estimation_witness :
    ((compute ⟨some 3, some 10, none, []⟩).1).estimation = some 30 ∧
    ((compute ⟨some 4, some 10, some 30, []⟩).1).estimation = some 40 ∧
    ((recalc_row_and_total ⟨some 3, some 10, none, []⟩).1).estimation
      = some 30 := by
  refine ⟨?_, ?_, ?_⟩
  · have h := (recompute_sets_estimation_to_product
      ⟨some 3, some 10, none, []⟩).1 (by norm_num [computeEst, flt0])
    norm_num [computeEst, flt0] at h
    exact h
  · have h := (recompute_sets_estimation_to_product
      ⟨some 4, some 10, some 30, []⟩).1 (by norm_num [computeEst, flt0])
    norm_num [computeEst, flt0] at h
    exact h
  · have h := (recompute_sets_estimation_to_product
      ⟨some 3, some 10, none, []⟩).2
    norm_num [computeEst, flt0] at h
    exact h

/-- C4 (corrected), counterexample: at `qte = -3`, `pu = 10`, stored
`estimation = 999`, the computed product differs from the stored value
and yet the `compute` handler performs no write. -/
theorem compute_write_not_iff_differs :
    some (computeEst ⟨some (-3), some 10, some 999, []⟩) ≠
      (⟨some (-3), some 10, some 999, []⟩ : DARow).estimation ∧
    (compute ⟨some (-3), some 10, some 999, []⟩).2 = false := by
  constructor
  · norm_num [computeEst, flt0]
  · norm_num [compute, computeEst, flt0]

/-- C4 (amended): the `part_004` handler writes `estimation` if and only
if the newly computed product differs from the stored value; the
`table_demande_dachat.js` `compute` handler writes if and only if the
product differs from the stored value and is nonnegative. -/
theorem recompute_write_condition (row : DARow) :
    ((recalc_row_and_total row).2 = true ↔
      row.estimation ≠ some (computeEst row)) ∧
    ((compute row).2 = true ↔
      0 ≤ computeEst row ∧ row.estimation ≠ some (computeEst row)) := by
  constructor
  · unfold recalc_row_and_total
    by_cases h2 : row.estimation = some (computeEst row) <;> simp [h2]
  · unfold compute
    by_cases h1 : 0 ≤ computeEst row <;>
      by_cases h2 : row.estimation = some (computeEst row) <;> simp [h1, h2]

/-- C10 (confirmed): both recompute handlers write at most the
`estimation` field of the triggering row - `qte`, `pu` and all other row
fields are returned unchanged on every invocation. -/
theorem recompute_frame (row : DARow) :
    ((compute row).1).qte = row.qte ∧ ((compute row).1).pu = row.pu ∧
    ((compute row).1).rest = row.rest ∧
    ((recalc_row_and_total row).1).qte = row.qte ∧
    ((recalc_row_and_total row).1).pu = row.pu ∧
    ((recalc_row_and_total row).1).rest = row.rest := by
  have hc : ((compute row).1).qte = row.qte ∧ ((compute row).1).pu = row.pu ∧
      ((compute row).1).rest = row.rest := by
    unfold compute
    by_cases h : 0 ≤ computeEst row ∧ row.estimation ≠ some (computeEst row) <;>
      simp [h]
  have hr : ((recalc_row_and_total row).1).qte = row.qte ∧
      ((recalc_row_and_total row).1).pu = row.pu ∧
      ((recalc_row_and_total row).1).rest = row.rest := by
    unfold recalc_row_and_total
    by_cases h : row.estimation = some (computeEst row) <;> simp [h]
  exact ⟨hc.1, hc.2.1, hc.2.2, hr.1, hr.2.1, hr.2.2⟩

end SDRT

namespace SDRT

/-! ## Theorems about schedule dates, import defaults, installation -/

/-- C3 (confirmed): with both dates set, a schedule date strictly earlier
than the transaction date is replaced by `transaction_date + 7`, and a
schedule date on or after the transaction date is left unchanged - both
in the `validate_schedule_date` handler and on the rows built by
`add_budget_lines_to_po`. -/
theorem schedule_date_shift (sd td : ℤ) (line : BudgetLine)
    (dsd : Option ℤ) (h : line.schedule_date = some sd) :
    (sd < td → validate_schedule_date (some sd) (some td) = some (td + 7)) ∧
    (td ≤ sd → validate_schedule_date (some sd) (some td) = some sd) ∧
    (sd < td → (add_budget_line_row line dsd td).schedule_date = td + 7) ∧
    (td ≤ sd → (add_budget_line_row line dsd td).schedule_date = sd) := by
  refine ⟨fun hlt => ?_, fun hge => ?_, fun hlt => ?_, fun hge => ?_⟩
  · simp [validate_schedule_date, show sd - td < 0 by omega]
  · simp [validate_schedule_date, show ¬(sd - td < 0) by omega]
  · simp [add_budget_line_row, h, show sd - td < 0 by omega]
  · simp [add_budget_line_row, h, show ¬(sd - td < 0) by omega]

/-- Witness for C3: schedule date 3 against transaction date 10 is pushed
to 17 on both paths; schedule date 10 against transaction date 3 stays. -/
theorem schedule_date_shift_witness :
    (3 : ℤ) < 10 ∧ (3 : ℤ) ≤ 10 ∧
    validate_schedule_date (some 3) (some 10) = some 17 ∧
    validate_schedule_date (some 10) (some 3) = some 10 ∧
    (add_budget_line_row ⟨"B1", "", none, none, "", some 3⟩ none 10).schedule_date
      = 17 := by
  refine ⟨by norm_num, by norm_num, ?_, ?_, ?_⟩
  · have h := (schedule_date_shift 3 10 ⟨"B1", "", none, none, "", some 3⟩
      none rfl).1 (by norm_num)
    norm_num at h
    exact h
  · have h := (schedule_date_shift 10 3 ⟨"B1", "", none, none, "", some 10⟩
      none rfl).2.1 (by norm_num)
    exact h
  · have h := (schedule_date_shift 3 10 ⟨"B1", "", none, none, "", some 3⟩
      none rfl).2.2.1 (by norm_num)
    norm_num at h
    exact h

/-- C8 (confirmed): a budget line imported with no unit of measure yields
a Purchase Order row with `uom = "Nos"`, `stock_uom = "Nos"` and
`conversion_factor = 1`. -/
theorem budget_line_missing_uom_defaults (line : BudgetLine)
    (dsd : Option ℤ) (td : ℤ) (h : line.uom = "") :
    (add_budget_line_row line dsd td).uom = "Nos" ∧
    (add_budget_line_row line dsd td).stock_uom = "Nos" ∧
    (add_budget_line_row line dsd td).conversion_factor = 1 := by
  simp [add_budget_line_row, jsStrOr, h]

/-- Witness for C8 on a concrete budget line without a unit of measure. -/
theorem budget_line_missing_uom_defaults_witness :
    (⟨"B1", "desc", some 2, some 5, "", some 20⟩ : BudgetLine).uom = "" ∧
    (add_budget_line_row ⟨"B1", "desc", some 2, some 5, "", some 20⟩ none 10).uom
      = "Nos" ∧
    (add_budget_line_row ⟨"B1", "desc", some 2, some 5, "", some 20⟩ none 10).stock_uom
      = "Nos" ∧
    (add_budget_line_row ⟨"B1", "desc", some 2, some 5, "", some 20⟩ none 10).conversion_factor
      = 1 :=
  ⟨rfl,
    (budget_line_missing_uom_defaults _ none 10 rfl).1,
    (budget_line_missing_uom_defaults _ none 10 rfl).2.1,
    (budget_line_missing_uom_defaults _ none 10 rfl).2.2⟩

/-- C6 (confirmed): run in a directory without `sites/apps.txt`, the
installation script exits with status 1, prints the explicit
directory-mismatch error, and performs no side effect (no file move, no
`apps.txt` append, no `bench` subcommand). -/
theorem install_missing_apps_txt_aborts (st : BenchState)
    (siteArg : Option String) (h : st.hasSitesAppsTxt = false) :
    (install_on_target st siteArg).exitCode = 1 ∧
    "❌ Error: This doesn't appear to be a frappe-bench directory" ∈
      (install_on_target st siteArg).output ∧
    (install_on_target st siteArg).effects = [] := by
  simp [install_on_target, h, installBanner]

/-- Witness for C6: the all-false bench state with no site argument. -/
theorem install_missing_apps_txt_aborts_witness :
    (⟨false, false, false, false, false, false⟩ : BenchState).hasSitesAppsTxt
      = false ∧
    (install_on_target ⟨false, false, false, false, false, false⟩ none).exitCode
      = 1 ∧
    "❌ Error: This doesn't appear to be a frappe-bench directory" ∈
      (install_on_target ⟨false, false, false, false, false, false⟩ none).output ∧
    (install_on_target ⟨false, false, false, false, false, false⟩ none).effects
      = [] :=
  ⟨rfl,
    (install_missing_apps_txt_aborts _ none rfl).1,
    (install_missing_apps_txt_aborts _ none rfl).2.1,
    (install_missing_apps_txt_aborts _ none rfl).2.2⟩

end SDRT
